import Mathlib

/-!
Shallow embedding of `app.py` from the asteroid-mining dashboard.

Numeric columns of the pandas frame are embedded as rationals (every
literal in the source is a finite decimal, hence an exact rational);
a pandas `DataFrame` row becomes an `AsteroidRecord`, the frame a
`List AsteroidRecord`, and the boolean-mask filter `df_filt` becomes
`List.filter` with the conjunctive row predicate `row_matches`.
-/

/-- One row of the asteroid table built by `load_asteroids` in `app.py`:
fields `name`, `a` (semi-major axis, AU), `e` (eccentricity),
`i` (inclination, deg), `diameter_km`, `est_value_billion_usd`,
`spectral_type`, `delta_v_km_s`. -/
structure AsteroidRecord where
  name : String
  a : ℚ
  e : ℚ
  i : ℚ
  diameter_km : ℚ
  est_value_billion_usd : ℚ
  spectral_type : String
  delta_v_km_s : ℚ
  deriving DecidableEq, Repr

/-- The fixed six-record dataset of `load_asteroids` (app.py lines 19-28),
rows in column order of the source dict. -/
def load_asteroids : List AsteroidRecord :=
  [ { name := "16 Psyche", a := 2.92, e := 0.14, i := 7.0, diameter_km := 226,
      est_value_billion_usd := 10000, spectral_type := "M", delta_v_km_s := 5.5 },
    { name := "Ryugu", a := 1.19, e := 0.19, i := 5.9, diameter_km := 0.9,
      est_value_billion_usd := 8.8, spectral_type := "C", delta_v_km_s := 4.6 },
    { name := "Bennu", a := 1.13, e := 0.20, i := 6.0, diameter_km := 0.49,
      est_value_billion_usd := 0.67, spectral_type := "B", delta_v_km_s := 5.1 },
    { name := "1 Ceres", a := 2.77, e := 0.08, i := 10.6, diameter_km := 946,
      est_value_billion_usd := 1000, spectral_type := "C", delta_v_km_s := 9.0 },
    { name := "4 Vesta", a := 2.36, e := 0.10, i := 7.1, diameter_km := 525,
      est_value_billion_usd := 500, spectral_type := "V", delta_v_km_s := 7.8 },
    { name := "433 Eros", a := 1.46, e := 0.22, i := 10.8, diameter_km := 16.8,
      est_value_billion_usd := 0.1, spectral_type := "S", delta_v_km_s := 5.8 } ]

/-- The sidebar filter state: `selected_types` from the multiselect and the
three slider values `min_diam`, `min_value`, `max_dv` (app.py lines 42-50). -/
structure FilterCriteria where
  selected_types : List String
  min_diam : ℚ
  min_value : ℚ
  max_dv : ℚ
  deriving DecidableEq, Repr

/-- The per-row boolean mask of app.py lines 53-58:
`isin(selected_types) & (diameter_km >= min_diam) &
(est_value_billion_usd >= min_value) & (delta_v_km_s <= max_dv)`. -/
def row_matches (c : FilterCriteria) (r : AsteroidRecord) : Bool :=
  decide (r.spectral_type ∈ c.selected_types) &&
  decide (c.min_diam ≤ r.diameter_km) &&
  decide (c.min_value ≤ r.est_value_billion_usd) &&
  decide (r.delta_v_km_s ≤ c.max_dv)

/-- `df_filt = df[mask]` (app.py lines 53-58): keep, in order, the rows
whose mask bit is true. -/
def df_filt (df : List AsteroidRecord) (c : FilterCriteria) : List AsteroidRecord :=
  df.filter (row_matches c)

/-- `pd.unique` over a string column: first-occurrence order, duplicates
dropped (used for the multiselect options/default, app.py lines 44-45). -/
def unique_in_order (l : List String) : List String :=
  l.foldl (fun acc s => if s ∈ acc then acc else acc ++ [s]) []

/-- The default sidebar state: multiselect defaults to all observed
spectral types, sliders default to 0.5 / 1.0 / 7.0 (app.py lines 42-50). -/
def default_criteria : FilterCriteria :=
  { selected_types := unique_in_order (load_asteroids.map AsteroidRecord.spectral_type),
    min_diam := 0.5, min_value := 1.0, max_dv := 7.0 }

/-- Slider lower bound for diameter (app.py line 48). -/
def diam_slider_min : ℚ := 0.1

/-- Slider upper bound for diameter (app.py line 48). -/
def diam_slider_max : ℚ := 1000.0

/-- Slider lower bound for estimated value (app.py line 49). -/
def value_slider_min : ℚ := 0.1

/-- Slider upper bound for estimated value (app.py line 49). -/
def value_slider_max : ℚ := 20000.0

/-- Slider lower bound for delta-v (app.py line 50). -/
def dv_slider_min : ℚ := 4.0

/-- Slider upper bound for delta-v (app.py line 50). -/
def dv_slider_max : ℚ := 15.0

/-- The loosest control settings reachable from the UI: all observed types
selected, both minimum sliders at their lower bounds, the delta-v slider at
its upper bound. -/
def loosest_criteria : FilterCriteria :=
  { selected_types := unique_in_order (load_asteroids.map AsteroidRecord.spectral_type),
    min_diam := diam_slider_min, min_value := value_slider_min, max_dv := dv_slider_max }

/-- The low/high profit band displayed per filtered row. -/
structure ProfitBand where
  low : ℚ
  high : ℚ
  deriving DecidableEq, Repr

/-- The profit band of app.py lines 73-75:
`low = base_value * 0.6`, `high = base_value * 1.4`. -/
def estimateBand (r : AsteroidRecord) : ProfitBand :=
  { low := r.est_value_billion_usd * 0.6, high := r.est_value_billion_usd * 1.4 }

/-- The orbit trace constructed at app.py lines 103-105:
`Orbit.circular(Sun, 1 * u.AU)` plotted with `label=selected`. The `row`
looked up at line 100 is in scope but never consulted. -/
structure OrbitPlot where
  attractor : String
  radius_au : ℚ
  label : String
  deriving DecidableEq, Repr

/-- Builds the single-orbit plot for a selected name, with the looked-up
`row` in scope exactly as at app.py lines 100-105; the orbit is
`Orbit.circular(Sun, 1 AU)` labeled by the selection. -/
def plot_selected_orbit (selected : String) (row : AsteroidRecord) : OrbitPlot :=
  { attractor := "Sun", radius_au := 1, label := selected }

/-- The result section of the page (app.py lines 85-108): the scatter plot
and the orbit plot render only when `df_filt` is non-empty; otherwise the
info message is shown. -/
structure PageOutput where
  scatter_shown : Bool
  orbit_shown : Bool
  info_message : Option String
  deriving DecidableEq, Repr

/-- The `if not df_filt.empty: ... else: st.info(...)` branch of
app.py lines 85-108. -/
def render_results (dfF : List AsteroidRecord) : PageOutput :=
  if dfF.isEmpty then
    { scatter_shown := false, orbit_shown := false,
      info_message := some "No asteroids match your filters." }
  else
    { scatter_shown := true, orbit_shown := true, info_message := none }

/-- The first record of the dataset, used as a concrete sample point. -/
def psycheRecord : AsteroidRecord :=
  { name := "16 Psyche", a := 2.92, e := 0.14, i := 7.0, diameter_km := 226,
    est_value_billion_usd := 10000, spectral_type := "M", delta_v_km_s := 5.5 }

/-! ### Evaluation helpers -/

/-- `pd.unique` of the spectral-type column, evaluated on the dataset's
column values: first-occurrence order, the duplicate C dropped. -/
theorem unique_types_eval : unique_in_order ["M", "C", "B", "C", "V", "S"]
    = ["M", "C", "B", "V", "S"] := rfl

/-- Tightening the three sliders (larger minima, smaller maximum) while
keeping the accepted-type set can only turn a matching row into a
non-matching one, never the reverse. -/
theorem row_matches_mono (c c' : FilterCriteria) (r : AsteroidRecord)
    (ht : c'.selected_types = c.selected_types) (hd : c.min_diam ≤ c'.min_diam)
    (hv : c.min_value ≤ c'.min_value) (hdv : c'.max_dv ≤ c.max_dv)
    (h : row_matches c' r = true) : row_matches c r = true := by
  simp only [row_matches, Bool.and_eq_true, decide_eq_true_eq] at h ⊢
  obtain ⟨⟨⟨h1, h2⟩, h3⟩, h4⟩ := h
  exact ⟨⟨⟨ht ▸ h1, le_trans hd h2⟩, le_trans hv h3⟩, le_trans h4 hdv⟩

/-! ### Claims -/

/-- C1: for every criteria and every record of the loaded dataset, the
filter includes the record iff its spectral type is in the accepted set
AND its diameter is at least the minimum AND its estimated value is at
least the minimum AND its delta-v is at most the maximum; all four
predicates are conjunctive. -/
theorem c1_filter_mem_iff (c : FilterCriteria) (r : AsteroidRecord)
    (hr : r ∈ load_asteroids) :
    r ∈ df_filt load_asteroids c ↔
      r.spectral_type ∈ c.selected_types ∧
      c.min_diam ≤ r.diameter_km ∧
      c.min_value ≤ r.est_value_billion_usd ∧
      r.delta_v_km_s ≤ c.max_dv := by
  rw [df_filt, List.mem_filter]
  simp [hr, row_matches, and_assoc]

/-- C1 witness: the inclusion criterion instantiated at the default
criteria and the first dataset record. -/
theorem c1_filter_mem_iff_witness :
    psycheRecord ∈ df_filt load_asteroids default_criteria ↔
      psycheRecord.spectral_type ∈ default_criteria.selected_types ∧
      default_criteria.min_diam ≤ psycheRecord.diameter_km ∧
      default_criteria.min_value ≤ psycheRecord.est_value_billion_usd ∧
      psycheRecord.delta_v_km_s ≤ default_criteria.max_dv :=
  c1_filter_mem_iff default_criteria psycheRecord (List.mem_cons_self _ _)

/-- C2 counterexample: with the default criteria, 433 Eros is NOT in the
filtered set, because its estimated value 0.1 is below the default
minimum value 1.0; this refutes the claimed result set of 16 Psyche,
Ryugu and 433 Eros. -/
theorem c2_default_filter_excludes_eros :
    "433 Eros" ∉ (df_filt load_asteroids default_criteria).map AsteroidRecord.name := by
  norm_num [df_filt, load_asteroids, default_criteria, row_matches, unique_types_eval,
    List.filter]
  decide

/-- C2 (amended): with the default criteria the filtered set excludes
Bennu (value 0.67 < 1.0 and diameter 0.49 < 0.5), 1 Ceres and 4 Vesta
(delta-v 9.0 and 7.8 above 7.0), and also 433 Eros (value 0.1 < 1.0),
leaving exactly 16 Psyche and Ryugu in original order. -/
theorem c2_default_filter_names :
    (df_filt load_asteroids default_criteria).map AsteroidRecord.name
      = ["16 Psyche", "Ryugu"] := by
  norm_num [df_filt, load_asteroids, default_criteria, row_matches, unique_types_eval,
    List.filter]

/-- C3: for every criteria, the filtered frame is a sublist of the input
frame: rows are dropped but never reordered, duplicated or altered. -/
theorem c3_df_filt_sublist (df : List AsteroidRecord) (c : FilterCriteria) :
    (df_filt df c).Sublist df :=
  List.filter_sublist df

/-- C4: for every record the profit band is low = 0.6 times the estimated
value and high = 1.4 times it; in particular 16 Psyche is the head of the
dataset, its value is 10000, and its band is low 6000, high 14000. -/
theorem c4_estimateBand_spec :
    (∀ r : AsteroidRecord,
        (estimateBand r).low = 0.6 * r.est_value_billion_usd ∧
        (estimateBand r).high = 1.4 * r.est_value_billion_usd) ∧
    load_asteroids.head? = some psycheRecord ∧
    psycheRecord.est_value_billion_usd = 10000 ∧
    estimateBand psycheRecord = { low := 6000, high := 14000 } := by
  refine ⟨fun r => ⟨mul_comm _ _, mul_comm _ _⟩, rfl, rfl, ?_⟩
  norm_num [estimateBand, psycheRecord]

/-- C5: whatever the three numeric thresholds, an empty accepted-type set
makes the filtered frame empty, the info message is shown, and neither
the scatter plot nor the orbit plot is rendered. -/
theorem c5_empty_types (df : List AsteroidRecord) (c : FilterCriteria)
    (h : c.selected_types = []) :
    df_filt df c = [] ∧
    render_results (df_filt df c) =
      { scatter_shown := false, orbit_shown := false,
        info_message := some "No asteroids match your filters." } := by
  have hempty : df_filt df c = [] := by
    rw [df_filt, List.filter_eq_nil_iff]
    intro r _
    simp [row_matches, h]
  exact ⟨hempty, by rw [hempty]; rfl⟩

/-- C5 witness: the empty-type criteria with the default thresholds on
the loaded dataset. -/
theorem c5_empty_types_witness :
    df_filt load_asteroids
        { selected_types := [], min_diam := 0.5, min_value := 1.0, max_dv := 7.0 } = [] ∧
    render_results (df_filt load_asteroids
        { selected_types := [], min_diam := 0.5, min_value := 1.0, max_dv := 7.0 }) =
      { scatter_shown := false, orbit_shown := false,
        info_message := some "No asteroids match your filters." } :=
  c5_empty_types load_asteroids
    { selected_types := [], min_diam := 0.5, min_value := 1.0, max_dv := 7.0 } rfl

/-- C6: the filter is idempotent: filtering an already-filtered frame
with the same criteria returns it unchanged. -/
theorem c6_df_filt_idempotent (rs : List AsteroidRecord) (c : FilterCriteria) :
    df_filt (df_filt rs c) c = df_filt rs c := by
  simp only [df_filt]
  rw [List.filter_filter]
  simp [Bool.and_self]

/-- C7: holding the accepted-type set fixed, raising the diameter
minimum, raising the value minimum, or lowering the delta-v maximum
never increases the number of filtered records. -/
theorem c7_df_filt_monotone (df : List AsteroidRecord) (c c' : FilterCriteria)
    (ht : c'.selected_types = c.selected_types)
    (hd : c.min_diam ≤ c'.min_diam)
    (hv : c.min_value ≤ c'.min_value)
    (hdv : c'.max_dv ≤ c.max_dv) :
    (df_filt df c').length ≤ (df_filt df c).length := by
  simp only [df_filt, ← List.countP_eq_length_filter]
  exact List.countP_mono_left fun r _ => row_matches_mono c c' r ht hd hv hdv

/-- C7 witness: tightening from the loosest criteria to the defaults on
the loaded dataset does not increase the filtered count. -/
theorem c7_df_filt_monotone_witness :
    (df_filt load_asteroids default_criteria).length ≤
      (df_filt load_asteroids loosest_criteria).length :=
  c7_df_filt_monotone load_asteroids loosest_criteria default_criteria rfl
    (by norm_num [loosest_criteria, default_criteria, diam_slider_min])
    (by norm_num [loosest_criteria, default_criteria, value_slider_min])
    (by norm_num [loosest_criteria, default_criteria, dv_slider_max])

/-- C8: for every selected name from the filtered set, the single-orbit
visualizer builds the same circular orbit of radius 1 AU around the Sun
labeled with the selected name, and the result does not depend on the
looked-up record (in particular not on its semi-major axis, eccentricity
or inclination). -/
theorem c8_orbit_fixed (df : List AsteroidRecord) (c : FilterCriteria) (s : String)
    (hs : s ∈ (df_filt df c).map AsteroidRecord.name) (row other : AsteroidRecord) :
    plot_selected_orbit s row =
      { attractor := "Sun", radius_au := 1, label := s } ∧
    plot_selected_orbit s row = plot_selected_orbit s other :=
  ⟨rfl, rfl⟩

/-- C8 witness: 16 Psyche selected from a one-record filtered set; the
orbit is unchanged when the record's orbital elements are replaced. -/
theorem c8_orbit_fixed_witness :
    plot_selected_orbit "16 Psyche" psycheRecord =
      { attractor := "Sun", radius_au := 1, label := "16 Psyche" } ∧
    plot_selected_orbit "16 Psyche" psycheRecord =
      plot_selected_orbit "16 Psyche" { psycheRecord with a := 99, e := 0.5, i := 42 } :=
  c8_orbit_fixed [psycheRecord]
    { selected_types := ["M"], min_diam := 1, min_value := 1, max_dv := 7 }
    "16 Psyche"
    (by norm_num [df_filt, psycheRecord, row_matches, List.filter])
    psycheRecord { psycheRecord with a := 99, e := 0.5, i := 42 }

/-- C9: the dataset has exactly six records, names are pairwise distinct,
and the numeric fields semi-major axis, inclination, diameter, estimated
value and delta-v are all strictly positive on every record. Every field
is a concrete rational literal, hence finite by construction. -/
theorem c9_load_asteroids_invariants :
    load_asteroids.length = 6 ∧
    (load_asteroids.map AsteroidRecord.name).Nodup ∧
    load_asteroids.all (fun r =>
      decide (0 < r.a) && decide (0 < r.i) && decide (0 < r.diameter_km) &&
      decide (0 < r.est_value_billion_usd) && decide (0 < r.delta_v_km_s)) = true := by
  refine ⟨rfl, by decide, ?_⟩
  norm_num [load_asteroids, List.all_cons, List.all_nil]

/-- C10: at the loosest control settings (all observed types accepted,
minimum sliders at their lower bounds, delta-v slider at its upper
bound) the filter keeps all six records, and every record's diameter,
value and delta-v lie inside the respective slider ranges. -/
theorem c10_loosest_filter_all :
    df_filt load_asteroids loosest_criteria = load_asteroids ∧
    load_asteroids.all (fun r =>
      decide (diam_slider_min ≤ r.diameter_km) &&
      decide (r.diameter_km ≤ diam_slider_max) &&
      decide (value_slider_min ≤ r.est_value_billion_usd) &&
      decide (r.est_value_billion_usd ≤ value_slider_max) &&
      decide (dv_slider_min ≤ r.delta_v_km_s) &&
      decide (r.delta_v_km_s ≤ dv_slider_max)) = true := by
  constructor
  · norm_num [df_filt, load_asteroids, loosest_criteria, row_matches, unique_types_eval,
      diam_slider_min, value_slider_min, dv_slider_max, List.filter]
  · norm_num [load_asteroids, List.all_cons, List.all_nil, diam_slider_min, diam_slider_max,
      value_slider_min, value_slider_max, dv_slider_min, dv_slider_max]
